import Mathlib

/-
  Verification development for the Moltgram SDK request execution core
  (TypeScript sources: HttpClient, MoltgramClient, error classes, validators,
  constants).  The definitions below are a shallow embedding of that code:
  JavaScript numbers appearing in the core are modelled as Int (or Nat for
  HTTP statuses, attempt counters and retry budgets), JavaScript
  `undefined` as Option, thrown exceptions as an inductive JsError whose
  variants mirror the error-class hierarchy, and the retry loop of
  HttpClient.request as a fuel-indexed recursive state machine over the
  per-attempt transport outcome.
-/

namespace Moltgram

/-- Constant from constants.ts: the required literal key prefix. -/
def API_KEY_PREFIX : String := "moltgram_"

/-- Constant from constants.ts line 9. It is exported but never used by HttpClient. -/
def MAX_RETRY_DELAY : Int := 30000

/-- Constant from HttpClient.ts: default base retry delay in ms. -/
def DEFAULT_RETRY_DELAY : Int := 1000

/-- Constant from HttpClient.ts: default retry budget. -/
def DEFAULT_RETRIES : Nat := 3

/-- JavaScript `a || b` on an optional string: the default is taken when the
value is undefined or the empty string (falsy). -/
def jsOrStr (v : Option String) (d : String) : String :=
  match v with
  | none => d
  | some s => if s = "" then d else s

/-- JavaScript `a || b` on an optional number: the default is taken when the
value is undefined or zero (falsy). -/
def jsOrInt (v : Option Int) (d : Int) : Int :=
  match v with
  | none => d
  | some n => if n = 0 then d else n

/-- Model of String.prototype.startsWith, via character lists so that it
evaluates by kernel reduction. -/
def jsStartsWith (s p : String) : Bool :=
  p.toList.isPrefixOf s.toList

/-- Model of the JavaScript string length (character count for the ASCII
strings handled by the SDK). -/
def jsStrLen (s : String) : Nat := s.toList.length

example : jsStartsWith ("moltgram_abc") ("moltgram_") = true := by decide
example : jsStartsWith ("wrong_abc") ("moltgram_") = false := by decide
example : jsStrLen ("moltgram_") = 9 := by decide
example : jsOrStr (some ("")) ("Unknown error") = "Unknown error" := by decide
example : jsOrInt (some 0) 60 = 60 := by decide

/-- Thrown values that circulate in the request core, one variant per error
class of utils/errors.ts plus the two non-Moltgram exceptions the retry loop
can catch: the DOMException raised by an aborted fetch, and the TypeError
(message containing the word fetch) raised by a failed fetch.  Each variant
stores the constructor arguments after the defaulting performed in the class
constructor bodies. -/
inductive JsError where
  | moltgram (message : String) (statusCode : Nat) (code : Option String) (hint : Option String)
  | authentication (message : String) (hint : String)
  | forbidden (message : String) (hint : Option String)
  | notFound (message : String) (hint : Option String)
  | validation (message : String) (code : String) (hint : Option String)
  | rateLimited (message : String) (retryAfter : Int) (hint : String) (resetAt : Int)
  | conflict (message : String) (hint : Option String)
  | network (message : String)
  | timedOutErr (message : String) (timeoutMs : Option Int)
  | abortError
  | typeErrorFetch (message : String)
deriving DecidableEq, Repr

/-- Constructor of AuthenticationError: status 401, code UNAUTHORIZED, hint
defaulted to the stock advice when falsy. -/
def AuthenticationError (message : String) (hint : Option String) : JsError :=
  .authentication message (jsOrStr hint ("Check your API key"))

/-- Constructor of ForbiddenError: status 403, code FORBIDDEN. -/
def ForbiddenError (message : String) (hint : Option String) : JsError :=
  .forbidden message hint

/-- Constructor of NotFoundError: status 404, code NOT_FOUND. -/
def NotFoundError (message : String) (hint : Option String) : JsError :=
  .notFound message hint

/-- Constructor of ValidationError: status 400, code defaulted to
VALIDATION_ERROR when falsy. -/
def ValidationError (message : String) (code : Option String) (hint : Option String) : JsError :=
  .validation message (jsOrStr code ("VALIDATION_ERROR")) hint

/-- Constructor of RateLimitError: status 429, code RATE_LIMITED, hint
defaulted, and resetAt computed as the current time plus retryAfter seconds
(both in milliseconds).  The current time is passed explicitly, standing for
Date.now() in the constructor body. -/
def RateLimitError (now : Int) (message : String) (retryAfter : Int) (hint : Option String) : JsError :=
  .rateLimited message retryAfter
    (jsOrStr hint ("Try again in " ++ toString retryAfter ++ " seconds"))
    (now + retryAfter * 1000)

/-- Constructor of ConflictError: status 409, code CONFLICT.  Defined in
utils/errors.ts; whether the mapper ever produces it is settled below. -/
def ConflictError (message : String) (hint : Option String) : JsError :=
  .conflict message hint

/-- Constructor of NetworkError: status 0, code NETWORK_ERROR. -/
def NetworkError (message : String) : JsError :=
  .network message

/-- Constructor of TimeoutError: status 0, code TIMEOUT.  Defined in
utils/errors.ts; whether the executor ever produces it is settled below. -/
def TimeoutError (message : String) (timeoutMs : Option Int) : JsError :=
  .timedOutErr message timeoutMs

/-- Model of `error instanceof MoltgramError`: every error-class variant
extends MoltgramError; the abort DOMException and the fetch TypeError do not. -/
def isMoltgramError : JsError → Bool
  | .abortError => false
  | .typeErrorFetch _ => false
  | _ => true

/-- Model of `error instanceof RateLimitError`. -/
def isRateLimitError : JsError → Bool
  | .rateLimited _ _ _ _ => true
  | _ => false

/-- Model of `error instanceof NetworkError`. -/
def isNetworkError : JsError → Bool
  | .network _ => true
  | _ => false

/-- The statusCode field set by each class constructor (0 on the variants
that have no such field; it is only ever read behind an isMoltgramError
guard). -/
def statusCode : JsError → Nat
  | .moltgram _ s _ _ => s
  | .authentication _ _ => 401
  | .forbidden _ _ => 403
  | .notFound _ _ => 404
  | .validation _ _ _ => 400
  | .rateLimited _ _ _ _ => 429
  | .conflict _ _ => 409
  | .network _ => 0
  | .timedOutErr _ _ => 0
  | .abortError => 0
  | .typeErrorFetch _ => 0

/-- The code field set by each class constructor (none on the variants that
have no such field). -/
def errCode : JsError → Option String
  | .moltgram _ _ c _ => c
  | .authentication _ _ => some ("UNAUTHORIZED")
  | .forbidden _ _ => some ("FORBIDDEN")
  | .notFound _ _ => some ("NOT_FOUND")
  | .validation _ c _ => some c
  | .rateLimited _ _ _ _ => some ("RATE_LIMITED")
  | .conflict _ _ => some ("CONFLICT")
  | .network _ => some ("NETWORK_ERROR")
  | .timedOutErr _ _ => some ("TIMEOUT")
  | .abortError => none
  | .typeErrorFetch _ => none

/-- The retryAfter field, present only on RateLimitError. -/
def retryAfterOf : JsError → Option Int
  | .rateLimited _ ra _ _ => some ra
  | _ => none

/-- The resetAt field, present only on RateLimitError. -/
def resetAtOf : JsError → Option Int
  | .rateLimited _ _ _ r => some r
  | _ => none

/-- The kind of a thrown value: which error class (or raw exception) it is. -/
inductive ErrKind where
  | generic
  | authentication
  | forbidden
  | notFound
  | validation
  | rateLimited
  | conflict
  | network
  | timeoutKind
  | abortKind
  | typeErrorKind
deriving DecidableEq, Repr

/-- Kind projection on thrown values. -/
def errKind : JsError → ErrKind
  | .moltgram _ _ _ _ => .generic
  | .authentication _ _ => .authentication
  | .forbidden _ _ => .forbidden
  | .notFound _ _ => .notFound
  | .validation _ _ _ => .validation
  | .rateLimited _ _ _ _ => .rateLimited
  | .conflict _ _ => .conflict
  | .network _ => .network
  | .timedOutErr _ _ => .timeoutKind
  | .abortError => .abortKind
  | .typeErrorFetch _ => .typeErrorKind

/-- The parsed service error body (ApiErrorResponse in types.ts): message,
optional machine code, optional hint, optional retry-after seconds. -/
structure ApiErrorBody where
  error : Option String
  code : Option String
  hint : Option String
  retryAfter : Option Int
deriving DecidableEq, Repr

/-- HttpClient.handleErrorResponse (HttpClient.ts lines 189 to 202).  The
body argument is none when response.json() failed to parse, in which case the
code synthesizes an ApiErrorResponse from the status line.  The switch over
response.status is modelled as the same chain of equality tests, in source
order: 401, 403, 404, 429, 400, default. -/
def handleErrorResponse (now : Int) (status : Nat) (statusText : String)
    (body : Option ApiErrorBody) : JsError :=
  let errorData : ApiErrorBody :=
    match body with
    | some d => d
    | none =>
      { error := some ("HTTP " ++ toString status ++ ": " ++ statusText)
        code := none, hint := none, retryAfter := none }
  let message := jsOrStr errorData.error ("Unknown error")
  let hint := errorData.hint
  if status = 401 then AuthenticationError message hint
  else if status = 403 then ForbiddenError message hint
  else if status = 404 then NotFoundError message hint
  else if status = 429 then RateLimitError now message (jsOrInt errorData.retryAfter 60) hint
  else if status = 400 then ValidationError message errorData.code hint
  else .moltgram message status errorData.code hint

example :
    errKind (handleErrorResponse 0 409 ("Conflict")
      (some { error := some ("dup"), code := some ("CONFLICT"), hint := none, retryAfter := none }))
      = ErrKind.generic := by decide

example :
    retryAfterOf (handleErrorResponse 0 429 ("")
      (some { error := some ("slow"), code := none, hint := none, retryAfter := some 0 }))
      = some 60 := by decide

/-- HttpClient.shouldRetry (HttpClient.ts lines 204 to 208): no retry once
the attempt index reaches the retry budget; a 4xx Moltgram error retries only
when it is a RateLimitError; otherwise retry on NetworkError or a Moltgram
error with a 5xx status. -/
def shouldRetry (retries : Nat) (error : JsError) (attempt : Nat) : Bool :=
  if retries ≤ attempt then false
  else if isMoltgramError error && decide (400 ≤ statusCode error) && decide (statusCode error < 500) then
    isRateLimitError error
  else
    isNetworkError error || (isMoltgramError error && decide (500 ≤ statusCode error))

/-- HttpClient.getRetryDelay (HttpClient.ts lines 210 to 213): a
RateLimitError waits its retryAfter seconds (times 1000 for ms); everything
else waits retryDelay times 2 to the attempt index.  No cap is applied. -/
def getRetryDelay (retryDelay : Int) (attempt : Nat) (error : JsError) : Int :=
  match error with
  | .rateLimited _ retryAfter _ _ => retryAfter * 1000
  | _ => retryDelay * 2 ^ attempt

/-- Model of parseInt(s, 10): skip leading whitespace, optional sign, then
the longest digit prefix; none models NaN (no digits). -/
def jsParseInt (s : String) : Option Int :=
  let t := s.toList.dropWhile (fun c => c.isWhitespace)
  let signed : Int × List Char :=
    match t with
    | '-' :: rest => (-1, rest)
    | '+' :: rest => (1, rest)
    | _ => (1, t)
  let ds := signed.2.takeWhile (fun c => c.isDigit)
  if ds.isEmpty then none
  else some (signed.1 * (ds.foldl (fun a c => a * 10 + (c.toNat - 48)) 0 : Nat))

/-- The three rate-limit response headers; none models a missing header, and
a present header carries its string value. -/
structure RespHeaders where
  limit : Option String
  remaining : Option String
  reset : Option String
deriving DecidableEq, Repr

/-- JavaScript truthiness of a Headers.get result: null and the empty string
are falsy. -/
def truthyHeader : Option String → Bool
  | none => false
  | some s => !(s = "")

/-- The RateLimitInfo record stored by the client: numbers are Option Int
with none modelling NaN (resetAt likewise models the Date value in ms). -/
structure RateLimitInfo where
  limit : Option Int
  remaining : Option Int
  resetAt : Option Int
deriving DecidableEq, Repr

/-- HttpClient.parseRateLimitHeaders (HttpClient.ts lines 180 to 187): when
all three headers are present and non-empty, overwrite the stored snapshot
with a record built only from the headers; otherwise leave the stored value
untouched. -/
def parseRateLimitHeaders (headers : RespHeaders) (rateLimitInfo : Option RateLimitInfo) :
    Option RateLimitInfo :=
  if truthyHeader headers.limit && truthyHeader headers.remaining && truthyHeader headers.reset then
    some { limit := jsParseInt (headers.limit.getD (""))
           remaining := jsParseInt (headers.remaining.getD (""))
           resetAt := (jsParseInt (headers.reset.getD (""))).map (fun n => n * 1000) }
  else rateLimitInfo

/-- What the transport does on one attempt: a completed response (with
status, status text, headers and the parse of the body as a service error
payload, none when unparseable), a fetch TypeError (network-level failure),
or no response within the timeout (the abort guard fires). -/
inductive AttemptOutcome where
  | response (status : Nat) (statusText : String) (headers : RespHeaders) (body : Option ApiErrorBody)
  | fetchFailure
  | timedOut
deriving DecidableEq, Repr

/-- Model of Response.ok: status in the 200 to 299 range. -/
def responseOk (status : Nat) : Bool :=
  decide (200 ≤ status) && decide (status ≤ 299)

/-- The rate-limit snapshot update one attempt performs: responses run
parseRateLimitHeaders on their headers; attempts with no response (network
failure or timeout) leave the snapshot untouched. -/
def updateRateLimit (st : Option RateLimitInfo) : AttemptOutcome → Option RateLimitInfo
  | .response _ _ headers _ => parseRateLimitHeaders headers st
  | .fetchFailure => st
  | .timedOut => st

/-- The error the catch block ends up holding for a failed attempt (none for
a successful one): a non-ok response is mapped by handleErrorResponse, a
fetch TypeError is replaced by NetworkError, and an abort is kept as the raw
abort exception (the instanceof TypeError test does not match it). -/
def attemptFailure (nowAt : Nat → Int) (transport : Nat → AttemptOutcome) (i : Nat) :
    Option JsError :=
  match transport i with
  | .response status statusText _ body =>
    if responseOk status then none
    else some (handleErrorResponse (nowAt i) status statusText body)
  | .fetchFailure => some (NetworkError ("Network request failed"))
  | .timedOut => some JsError.abortError

deriving instance DecidableEq for Except

/-- The observable outcome of one HttpClient.request run: the returned or
thrown value, the final rate-limit snapshot, how many attempts were made,
and the backoff sleeps performed in order (ms). -/
structure RequestResult where
  result : Except JsError Unit
  rateLimit : Option RateLimitInfo
  attempts : Nat
  delays : List Int
deriving DecidableEq, Repr

/-- The retry loop of HttpClient.request (HttpClient.ts lines 217 to 238),
driven by the per-attempt transport outcome and a per-attempt clock.  fuel
counts the loop iterations still allowed by `attempt <= retries`; the fuel-0
branch mirrors the `throw lastError` after the loop, which is unreachable
because shouldRetry is false once the budget is reached. -/
def requestGo (retries : Nat) (retryDelay : Int) (transport : Nat → AttemptOutcome)
    (nowAt : Nat → Int) :
    Nat → Nat → Option RateLimitInfo → List Int → Option JsError → RequestResult
  | attempt, 0, st, delays, lastError =>
    { result := .error (lastError.getD JsError.abortError), rateLimit := st
      attempts := attempt, delays := delays }
  | attempt, fuel + 1, st, delays, _ =>
    match transport attempt with
    | .response status statusText headers body =>
      let st1 := updateRateLimit st (.response status statusText headers body)
      if responseOk status then
        { result := .ok (), rateLimit := st1, attempts := attempt + 1, delays := delays }
      else
        let err := handleErrorResponse (nowAt attempt) status statusText body
        if shouldRetry retries err attempt then
          requestGo retries retryDelay transport nowAt (attempt + 1) fuel st1
            (delays ++ [getRetryDelay retryDelay attempt err]) (some err)
        else
          { result := .error err, rateLimit := st1, attempts := attempt + 1, delays := delays }
    | .fetchFailure =>
      let err := NetworkError ("Network request failed")
      if shouldRetry retries err attempt then
        requestGo retries retryDelay transport nowAt (attempt + 1) fuel st
          (delays ++ [getRetryDelay retryDelay attempt err]) (some err)
      else
        { result := .error err, rateLimit := st, attempts := attempt + 1, delays := delays }
    | .timedOut =>
      let err := JsError.abortError
      if shouldRetry retries err attempt then
        requestGo retries retryDelay transport nowAt (attempt + 1) fuel st
          (delays ++ [getRetryDelay retryDelay attempt err]) (some err)
      else
        { result := .error err, rateLimit := st, attempts := attempt + 1, delays := delays }

/-- HttpClient.request: run the loop from attempt 0 with budget retries + 1,
the snapshot starting at null (the field initializer of rateLimitInfo). -/
def request (retries : Nat) (retryDelay : Int) (transport : Nat → AttemptOutcome)
    (nowAt : Nat → Int) : RequestResult :=
  requestGo retries retryDelay transport nowAt 0 (retries + 1) none [] none

example :
    (request 3 1000 (fun _ => AttemptOutcome.timedOut) (fun _ => 0)).result
      = Except.error JsError.abortError := by decide

example :
    (request 3 1000 (fun _ => AttemptOutcome.timedOut) (fun _ => 0)).attempts = 1 := by decide

example :
    (request 1 1000 (fun _ => AttemptOutcome.fetchFailure) (fun _ => 0)).attempts = 2 := by decide

/-- The configuration fields inspected by MoltgramClient.validateConfig
(apiKey, timeout, retries); none models an undefined field.  The typeof
checks of the source are statically true in this typed model. -/
structure MoltgramClientConfig where
  apiKey : Option String
  timeout : Option Int
  retries : Option Int
deriving DecidableEq, Repr

/-- The apiKey test of validateConfig: a defined, truthy (non-empty) key
that does not start with the literal prefix. -/
def apiKeyBad : Option String → Bool
  | none => false
  | some k => !(k = "") && !(jsStartsWith k API_KEY_PREFIX)

/-- The timeout test of validateConfig: defined and not positive. -/
def timeoutBad : Option Int → Bool
  | none => false
  | some t => decide (t ≤ 0)

/-- The retries test of validateConfig: defined and negative. -/
def retriesBad : Option Int → Bool
  | none => false
  | some r => decide (r < 0)

/-- MoltgramClient.validateConfig (MoltgramClient.ts lines 274 to 281),
called by the constructor before any network object is built: it raises
ConfigurationError on a bad apiKey prefix, a non-positive timeout, or a
negative retries count, in that order, and returns normally otherwise. -/
def validateConfig (config : MoltgramClientConfig) : Except String Unit :=
  if apiKeyBad config.apiKey then
    .error ("apiKey must start with " ++ API_KEY_PREFIX)
  else if timeoutBad config.timeout then
    .error ("timeout must be a positive number")
  else if retriesBad config.retries then
    .error ("retries must be a non-negative number")
  else .ok ()

/-- validateApiKey from utils/validators.ts lines 13 to 18: a standalone
helper that additionally enforces the 25-character minimum length.  A falsy
(undefined or empty) key passes. -/
def validateApiKey (apiKey : Option String) : Except String Unit :=
  match apiKey with
  | none => .ok ()
  | some k =>
    if k = "" then .ok ()
    else if !(jsStartsWith k API_KEY_PREFIX) then
      .error ("apiKey must start with " ++ API_KEY_PREFIX)
    else if jsStrLen k < 25 then .error ("apiKey is too short")
    else .ok ()

example : validateConfig { apiKey := some ("moltgram_"), timeout := none, retries := none } = .ok () := by decide
example : validateApiKey (some ("moltgram_")) = .error ("apiKey is too short") := by decide

/-- A query parameter value as typed in RequestConfig: string, number, or
undefined. -/
inductive QueryVal where
  | undef
  | s (v : String)
  | n (v : Int)
deriving DecidableEq, Repr

/-- Whether a query value is undefined. -/
def isUndef : QueryVal → Bool
  | .undef => true
  | _ => false

/-- Model of String(value) on a defined query value. -/
def qString : QueryVal → String
  | .undef => "undefined"
  | .s v => v
  | .n v => toString v

/-- The query-appending loop of HttpClient.buildUrl (HttpClient.ts lines 174
to 178): Object.entries order, appending key and String(value) to the search
parameters unless the value is strictly undefined. -/
def appendSearchParams (query : List (String × QueryVal)) : List (String × String) :=
  query.foldl (fun acc kv => if isUndef kv.2 then acc else acc ++ [(kv.1, qString kv.2)]) []

/-- The search-parameter list of the URL built by buildUrl: empty when no
query object is passed. -/
def buildSearchParams (query : Option (List (String × QueryVal))) : List (String × String) :=
  match query with
  | none => []
  | some q => appendSearchParams q

/-- Serialization of URLSearchParams into the query string of url.toString():
key=value pairs joined by ampersands (percent-encoding of the plain ASCII
keys and values used here is the identity and is omitted). -/
def serializeSearch : List (String × String) → String
  | [] => ""
  | [p] => p.1 ++ "=" ++ p.2
  | p :: q :: rest => p.1 ++ "=" ++ p.2 ++ "&" ++ serializeSearch (q :: rest)

example :
    buildSearchParams (some [("a", QueryVal.s ("")), ("b", QueryVal.undef), ("c", QueryVal.n 7)])
      = [("a", ""), ("c", "7")] := by decide
example : serializeSearch [("a", ""), ("c", "7")] = "a=&c=7" := by decide

/-- The failures the retry branch of shouldRetry accepts: NetworkError, a
RateLimitError, or a Moltgram error with a 5xx status. -/
def retryableErr (e : JsError) : Bool :=
  isNetworkError e || isRateLimitError e || (isMoltgramError e && decide (500 ≤ statusCode e))

/-- shouldRetry holds exactly when budget remains and the failure shape is
retryable. -/
theorem shouldRetry_true_iff (retries : Nat) (e : JsError) (attempt : Nat) :
    shouldRetry retries e attempt = true ↔ (attempt < retries ∧ retryableErr e = true) := by
  cases e <;>
    simp [shouldRetry, retryableErr, isMoltgramError, isNetworkError, isRateLimitError,
      statusCode] <;>
    omega

/-- Once the budget is reached the loop never retries. -/
theorem shouldRetry_false_of_budget (retries : Nat) (e : JsError) (attempt : Nat)
    (h : retries ≤ attempt) : shouldRetry retries e attempt = false := by
  rw [shouldRetry, if_pos h]

/-- Within budget, a retryable failure is retried. -/
theorem shouldRetry_true_of (retries : Nat) (e : JsError) (attempt : Nat)
    (h1 : attempt < retries) (h2 : retryableErr e = true) :
    shouldRetry retries e attempt = true :=
  (shouldRetry_true_iff retries e attempt).mpr ⟨h1, h2⟩

/-- A non-retryable failure shape is never retried, whatever the budget. -/
theorem shouldRetry_false_of_terminal (retries : Nat) (e : JsError) (attempt : Nat)
    (h2 : retryableErr e = false) : shouldRetry retries e attempt = false := by
  cases hb : shouldRetry retries e attempt
  · rfl
  · have h := ((shouldRetry_true_iff retries e attempt).mp hb).2
    rw [h2] at h
    cases h

/-- With the default base delay, the computed exponential backoff exceeds any
fixed bound at a large enough attempt index. -/
theorem getRetryDelay_unbounded (M : Int) :
    ∃ attempt : Nat,
      M < getRetryDelay DEFAULT_RETRY_DELAY attempt (JsError.moltgram ("Internal error") 500 none none) := by
  refine ⟨M.toNat, ?_⟩
  have h1 : (M.toNat : Int) < 2 ^ M.toNat := by exact_mod_cast Nat.lt_two_pow M.toNat
  have h2 : (2 : Int) ^ M.toNat ≤ 1000 * 2 ^ M.toNat := by
    nlinarith [pow_pos (by norm_num : (0 : Int) < 2) M.toNat]
  have h3 : M ≤ (M.toNat : Int) := Int.self_le_toNat M
  simp only [getRetryDelay, DEFAULT_RETRY_DELAY]
  linarith

/-- The appending loop of buildUrl computes the filter-then-stringify of the
query object. -/
theorem appendSearchParams_eq (q : List (String × QueryVal)) :
    appendSearchParams q
      = (q.filter (fun p => !(isUndef p.2))).map (fun p => (p.1, qString p.2)) := by
  suffices h : ∀ acc : List (String × String),
      q.foldl (fun acc kv => if isUndef kv.2 then acc else acc ++ [(kv.1, qString kv.2)]) acc
        = acc ++ (q.filter (fun p => !(isUndef p.2))).map (fun p => (p.1, qString p.2)) by
    simpa [appendSearchParams] using h []
  induction q with
  | nil => intro acc; simp
  | cons x xs ih =>
    intro acc
    by_cases hx : isUndef x.2 <;> simp [hx, ih, List.filter_cons]

/-- Any pair of the search-parameter list appears verbatim as key=value in
the serialized query string. -/
theorem serializeSearch_mem (ps : List (String × String)) (k v : String)
    (h : (k, v) ∈ ps) :
    ∃ pre post, serializeSearch ps = pre ++ (k ++ "=" ++ v) ++ post := by
  induction ps with
  | nil => cases h
  | cons p rest ih =>
    rcases List.mem_cons.mp h with h | h
    · subst h
      cases rest with
      | nil =>
        refine ⟨"", "", ?_⟩
        simp [serializeSearch, String.append_empty, String.empty_append]
      | cons q rest2 =>
        refine ⟨"", "&" ++ serializeSearch (q :: rest2), ?_⟩
        simp [serializeSearch, String.append_assoc, String.empty_append]
    · cases rest with
      | nil => cases h
      | cons q rest2 =>
        obtain ⟨pre, post, hs⟩ := ih h
        refine ⟨p.1 ++ "=" ++ p.2 ++ "&" ++ pre, post, ?_⟩
        simp [serializeSearch, hs, String.append_assoc]

/-- When every attempt fails with a retryable error, the loop consumes its
whole budget and ends by surfacing the error classified on the final
attempt. -/
theorem requestGo_exhausts (retries : Nat) (retryDelay : Int)
    (transport : Nat → AttemptOutcome) (nowAt : Nat → Int) (err : Nat → JsError)
    (herr : ∀ i, attemptFailure nowAt transport i = some (err i) ∧ retryableErr (err i) = true) :
    ∀ (fuel attempt : Nat) (st : Option RateLimitInfo) (delays : List Int)
      (le : Option JsError), attempt + fuel = retries + 1 → attempt ≤ retries →
      (requestGo retries retryDelay transport nowAt attempt fuel st delays le).result
          = .error (err retries) ∧
      (requestGo retries retryDelay transport nowAt attempt fuel st delays le).attempts
          = retries + 1 := by
  intro fuel
  induction fuel with
  | zero => intro attempt st delays le hsum hle; omega
  | succ fuel ih =>
    intro attempt st delays le hsum hle
    obtain ⟨h1, h2⟩ := herr attempt
    rcases htr : transport attempt with ⟨status, statusText, headers, body⟩ | _ | _
    · simp only [attemptFailure, htr] at h1
      cases hok : responseOk status with
      | true => simp [hok] at h1
      | false =>
        simp only [hok, Bool.false_eq_true, if_false, Option.some.injEq] at h1
        rw [← h1] at h2
        by_cases hlast : attempt = retries
        · have hsr : shouldRetry retries (handleErrorResponse (nowAt attempt) status statusText body) attempt = false :=
            shouldRetry_false_of_budget _ _ _ (by omega)
          subst hlast
          rw [h1] at hsr
          simp [requestGo, htr, hok, hsr, h1]
        · have hlt : attempt < retries := by omega
          have hsr : shouldRetry retries (handleErrorResponse (nowAt attempt) status statusText body) attempt = true :=
            shouldRetry_true_of _ _ _ hlt h2
          have hrec := ih (attempt + 1)
            (updateRateLimit st (.response status statusText headers body))
            (delays ++ [getRetryDelay retryDelay attempt (handleErrorResponse (nowAt attempt) status statusText body)])
            (some (handleErrorResponse (nowAt attempt) status statusText body))
            (by omega) (by omega)
          simpa [requestGo, htr, hok, hsr] using hrec
    · simp only [attemptFailure, htr, Option.some.injEq] at h1
      rw [← h1] at h2
      by_cases hlast : attempt = retries
      · have hsr : shouldRetry retries (NetworkError ("Network request failed")) attempt = false :=
          shouldRetry_false_of_budget _ _ _ (by omega)
        subst hlast
        rw [h1] at hsr
        simp [requestGo, htr, hsr, h1]
      · have hlt : attempt < retries := by omega
        have hsr : shouldRetry retries (NetworkError ("Network request failed")) attempt = true :=
          shouldRetry_true_of _ _ _ hlt h2
        have hrec := ih (attempt + 1) st
          (delays ++ [getRetryDelay retryDelay attempt (NetworkError ("Network request failed"))])
          (some (NetworkError ("Network request failed")))
          (by omega) (by omega)
        simpa [requestGo, htr, hsr] using hrec
    · simp only [attemptFailure, htr, Option.some.injEq] at h1
      rw [← h1] at h2
      simp [retryableErr, isNetworkError, isRateLimitError, isMoltgramError] at h2

/-- Attempts that receive no response leave the rate-limit snapshot exactly
as it was when the run started. -/
theorem requestGo_no_response (retries : Nat) (retryDelay : Int)
    (transport : Nat → AttemptOutcome) (nowAt : Nat → Int)
    (htr : ∀ i, transport i = .fetchFailure ∨ transport i = .timedOut) :
    ∀ (fuel attempt : Nat) (st : Option RateLimitInfo) (delays : List Int)
      (le : Option JsError),
      (requestGo retries retryDelay transport nowAt attempt fuel st delays le).rateLimit = st := by
  intro fuel
  induction fuel with
  | zero => intro attempt st delays le; simp [requestGo]
  | succ fuel ih =>
    intro attempt st delays le
    rcases htr attempt with h | h <;> rw [requestGo] <;> simp only [h] <;> split
    · exact ih (attempt + 1) st _ _
    · rfl
    · exact ih (attempt + 1) st _ _
    · rfl

/-- Claim C1 as stated is false at status 409: the switch of
handleErrorResponse has no 409 case, so a 409 response with a service body
carrying the CONFLICT code is mapped to the generic MoltgramError, not to
ConflictError. -/
theorem c1_counterexample :
    errKind (handleErrorResponse 0 409 ("Conflict")
        (some { error := some ("Resource already exists"), code := some ("CONFLICT"),
                hint := none, retryAfter := none }))
      = ErrKind.generic ∧
    ErrKind.generic ≠ ErrKind.conflict := by
  exact ⟨rfl, by decide⟩

/-- C1 (amended): the mapper sends 401 to Authentication, 403 to Forbidden,
404 to NotFound, 429 to RateLimited and 400 to Validation; every other
status — 409 included — yields the generic error carrying the raw status
code and the message, code and hint supplied by the service body (with the
stock fallback message when the body gives a falsy one). -/
theorem c1_error_mapper_table (now : Int) (status : Nat) (statusText : String)
    (body : ApiErrorBody)
    (hstatus : status ≠ 401 ∧ status ≠ 403 ∧ status ≠ 404 ∧ status ≠ 429 ∧ status ≠ 400) :
    handleErrorResponse now status statusText (some body)
        = JsError.moltgram (jsOrStr body.error ("Unknown error")) status body.code body.hint ∧
    errKind (handleErrorResponse now 401 statusText (some body)) = ErrKind.authentication ∧
    errKind (handleErrorResponse now 403 statusText (some body)) = ErrKind.forbidden ∧
    errKind (handleErrorResponse now 404 statusText (some body)) = ErrKind.notFound ∧
    errKind (handleErrorResponse now 429 statusText (some body)) = ErrKind.rateLimited ∧
    errKind (handleErrorResponse now 400 statusText (some body)) = ErrKind.validation := by
  obtain ⟨h1, h2, h3, h4, h5⟩ := hstatus
  refine ⟨?_, ?_, ?_, ?_, ?_, ?_⟩ <;>
    simp [handleErrorResponse, h1, h2, h3, h4, h5, AuthenticationError, ForbiddenError,
      NotFoundError, RateLimitError, ValidationError, errKind]

/-- Witness for C1 at status 418 and a concrete body. -/
theorem c1_witness :
    handleErrorResponse 7 418 ("teapot")
        (some { error := some ("boom"), code := some ("INTERNAL_ERROR"), hint := none,
                retryAfter := none })
        = JsError.moltgram ("boom") 418 (some ("INTERNAL_ERROR")) none ∧
    errKind (handleErrorResponse 7 401 ("teapot")
        (some { error := some ("boom"), code := some ("INTERNAL_ERROR"), hint := none,
                retryAfter := none })) = ErrKind.authentication ∧
    errKind (handleErrorResponse 7 403 ("teapot")
        (some { error := some ("boom"), code := some ("INTERNAL_ERROR"), hint := none,
                retryAfter := none })) = ErrKind.forbidden ∧
    errKind (handleErrorResponse 7 404 ("teapot")
        (some { error := some ("boom"), code := some ("INTERNAL_ERROR"), hint := none,
                retryAfter := none })) = ErrKind.notFound ∧
    errKind (handleErrorResponse 7 429 ("teapot")
        (some { error := some ("boom"), code := some ("INTERNAL_ERROR"), hint := none,
                retryAfter := none })) = ErrKind.rateLimited ∧
    errKind (handleErrorResponse 7 400 ("teapot")
        (some { error := some ("boom"), code := some ("INTERNAL_ERROR"), hint := none,
                retryAfter := none })) = ErrKind.validation := by
  exact c1_error_mapper_table 7 418 ("teapot") _ (by decide)

/-- Claim C2 as stated is false: with a transport that never responds within
the timeout, the surfaced value is the raw abort exception of the cancelled
fetch — it is not the Timeout typed error and carries no TIMEOUT code. -/
theorem c2_counterexample :
    (request 3 1000 (fun _ => AttemptOutcome.timedOut) (fun _ => 0)).result
        = Except.error JsError.abortError ∧
    errKind JsError.abortError ≠ ErrKind.timeoutKind ∧
    errCode JsError.abortError ≠ some ("TIMEOUT") ∧
    statusCode (TimeoutError ("Request timed out") none) = 0 ∧
    errCode (TimeoutError ("Request timed out") none) = some ("TIMEOUT") := by
  refine ⟨rfl, by decide, by decide, rfl, rfl⟩

/-- C2 (amended): an attempt in which the transport does not respond within
the timeout is aborted, and the resulting abort exception is classified
non-retryable and surfaced raw to the caller after that attempt; the
TimeoutError class (status 0, code TIMEOUT) is never produced by the
executor. -/
theorem c2_timeout_surfaces_abort (retries : Nat) (retryDelay : Int)
    (transport : Nat → AttemptOutcome) (nowAt : Nat → Int) (attempt fuel : Nat)
    (st : Option RateLimitInfo) (delays : List Int) (le : Option JsError)
    (h : transport attempt = AttemptOutcome.timedOut) :
    requestGo retries retryDelay transport nowAt attempt (fuel + 1) st delays le
      = { result := Except.error JsError.abortError, rateLimit := st,
          attempts := attempt + 1, delays := delays } := by
  have hsr : shouldRetry retries JsError.abortError attempt = false :=
    shouldRetry_false_of_terminal _ _ _ rfl
  rw [requestGo]
  simp [h, hsr]

/-- Witness for C2 on a concrete timed-out run. -/
theorem c2_witness :
    requestGo 3 1000 (fun _ => AttemptOutcome.timedOut) (fun _ => 0) 0 4 none [] none
      = { result := Except.error JsError.abortError, rateLimit := none,
          attempts := 1, delays := [] } := by
  exact c2_timeout_surfaces_abort 3 1000 _ _ 0 3 none [] none rfl

/-- C3: a failed attempt is retried exactly when budget remains and the
failure is a NetworkError, a RateLimitError, or a Moltgram error with a 5xx
status; and a run whose first attempt yields a non-retryable error response
surfaces that classified error after exactly one attempt. -/
theorem c3_retry_policy :
    (∀ (retries : Nat) (error : JsError) (attempt : Nat),
        shouldRetry retries error attempt = true ↔
          (attempt < retries ∧
            (isNetworkError error = true ∨ isRateLimitError error = true ∨
              (isMoltgramError error = true ∧ 500 ≤ statusCode error)))) ∧
    (∀ (retries : Nat) (retryDelay : Int) (transport : Nat → AttemptOutcome)
        (nowAt : Nat → Int) (status : Nat) (statusText : String) (headers : RespHeaders)
        (body : Option ApiErrorBody),
        transport 0 = AttemptOutcome.response status statusText headers body →
        responseOk status = false →
        retryableErr (handleErrorResponse (nowAt 0) status statusText body) = false →
        request retries retryDelay transport nowAt
          = { result := Except.error (handleErrorResponse (nowAt 0) status statusText body),
              rateLimit := parseRateLimitHeaders headers none, attempts := 1, delays := [] }) := by
  constructor
  · intro retries error attempt
    rw [shouldRetry_true_iff]
    simp [retryableErr, Bool.or_eq_true, Bool.and_eq_true, decide_eq_true_eq, or_assoc]
  · intro retries retryDelay transport nowAt status statusText headers body htr hok hterm
    have hsr : shouldRetry retries (handleErrorResponse (nowAt 0) status statusText body) 0
        = false := shouldRetry_false_of_terminal _ _ _ hterm
    rw [request, requestGo]
    simp [htr, hok, hsr, updateRateLimit]

/-- Witness for C3: a transport that always answers 404 is surfaced as the
mapped NotFoundError after exactly one attempt. -/
theorem c3_witness :
    request 3 1000
        (fun _ => AttemptOutcome.response 404 ("Not Found")
          { limit := none, remaining := none, reset := none }
          (some { error := some ("missing"), code := none, hint := none, retryAfter := none }))
        (fun _ => 0)
      = { result := Except.error (JsError.notFound ("missing") none), rateLimit := none,
          attempts := 1, delays := [] } := by
  exact c3_retry_policy.2 3 1000
    (fun _ => AttemptOutcome.response 404 ("Not Found")
      { limit := none, remaining := none, reset := none }
      (some { error := some ("missing"), code := none, hint := none, retryAfter := none }))
    (fun _ => 0) 404 ("Not Found")
    { limit := none, remaining := none, reset := none }
    (some { error := some ("missing"), code := none, hint := none, retryAfter := none })
    rfl rfl rfl

/-- Claim C4 as stated is false: the computed exponential backoff is not
capped.  At the default base delay of 1000 ms, retry index 5 waits 32000 ms,
above the 30000 ms MAX_RETRY_DELAY constant (which HttpClient never reads);
the capped value the claim prescribes would be 30000 ms. -/
theorem c4_counterexample :
    getRetryDelay DEFAULT_RETRY_DELAY 5 (JsError.moltgram ("Internal error") 500 none none)
        = 32000 ∧
    MAX_RETRY_DELAY = 30000 ∧
    min (DEFAULT_RETRY_DELAY * 2 ^ 5) MAX_RETRY_DELAY = 30000 ∧
    (32000 : Int) ≠ 30000 := by
  refine ⟨by decide, rfl, by decide, by decide⟩

/-- C4 (amended): the delay before retry index i is baseDelay times 2 to the
i with no maximum-delay cap (it exceeds any fixed bound for large enough i),
except that a RateLimited failure waits exactly the server-reported
retryAfter seconds (1000 ms each), which takes precedence. -/
theorem c4_retry_delay :
    (∀ (retryDelay : Int) (attempt : Nat) (e : JsError), isRateLimitError e = false →
        getRetryDelay retryDelay attempt e = retryDelay * 2 ^ attempt) ∧
    (∀ (retryDelay : Int) (attempt : Nat) (message hint : String) (retryAfter resetAt : Int),
        getRetryDelay retryDelay attempt (JsError.rateLimited message retryAfter hint resetAt)
          = retryAfter * 1000) ∧
    (∀ M : Int, ∃ attempt : Nat,
        M < getRetryDelay DEFAULT_RETRY_DELAY attempt
          (JsError.moltgram ("Internal error") 500 none none)) := by
  refine ⟨?_, ?_, getRetryDelay_unbounded⟩
  · intro retryDelay attempt e he
    cases e <;> simp [getRetryDelay] <;> simp [isRateLimitError] at he
  · intro retryDelay attempt message hint retryAfter resetAt
    rfl

/-- Witness for C4 at concrete inputs. -/
theorem c4_witness :
    getRetryDelay 1000 3 (NetworkError ("Network request failed")) = 8000 ∧
    getRetryDelay 1000 3 (JsError.rateLimited ("slow") 7 ("h") 0) = 7000 := by
  exact ⟨c4_retry_delay.1 1000 3 _ rfl, c4_retry_delay.2.1 1000 3 ("slow") ("h") 7 0⟩

/-- C5: when every attempt fails with a retryable error, the run makes
exactly retries + 1 attempts and surfaces the error classified on the last
attempt. -/
theorem c5_exhausts_budget (retries : Nat) (retryDelay : Int)
    (transport : Nat → AttemptOutcome) (nowAt : Nat → Int) (err : Nat → JsError)
    (herr : ∀ i, attemptFailure nowAt transport i = some (err i) ∧ retryableErr (err i) = true) :
    (request retries retryDelay transport nowAt).attempts = retries + 1 ∧
    (request retries retryDelay transport nowAt).result = Except.error (err retries) := by
  have h := requestGo_exhausts retries retryDelay transport nowAt err herr
    (retries + 1) 0 none [] none (by omega) (by omega)
  exact ⟨h.2, h.1⟩

/-- Witness for C5: always-500 transport with a budget of 2 retries makes 3
attempts and surfaces the generic 500 error. -/
theorem c5_witness :
    (request 2 1000
        (fun _ => AttemptOutcome.response 500 ("ISE")
          { limit := none, remaining := none, reset := none }
          (some { error := some ("kaput"), code := none, hint := none, retryAfter := none }))
        (fun _ => 0)).attempts = 3 ∧
    (request 2 1000
        (fun _ => AttemptOutcome.response 500 ("ISE")
          { limit := none, remaining := none, reset := none }
          (some { error := some ("kaput"), code := none, hint := none, retryAfter := none }))
        (fun _ => 0)).result = Except.error (JsError.moltgram ("kaput") 500 none none) := by
  exact c5_exhausts_budget 2 1000 _ _
    (fun _ => JsError.moltgram ("kaput") 500 none none) (fun i => ⟨rfl, rfl⟩)

/-- Claim C6 as stated is false: a credential with the right prefix but
shorter than the minimum length passes construction, because
MoltgramClient.validateConfig checks only the prefix; the length rule lives
only in the standalone validateApiKey helper, which the constructor never
calls. -/
theorem c6_counterexample :
    validateConfig { apiKey := some ("moltgram_"), timeout := none, retries := none }
        = Except.ok () ∧
    jsStrLen ("moltgram_") < 25 ∧
    validateApiKey (some ("moltgram_")) = Except.error ("apiKey is too short") := by
  refine ⟨rfl, by decide, by decide⟩

/-- C6 (amended): construction with a provided credential fails with a
Configuration error exactly when the credential is non-empty and does not
start with the literal prefix; no minimum-length check is applied at
construction, and an absent (or empty) credential is legal. -/
theorem c6_config_validation :
    (∀ k : String,
        validateConfig { apiKey := some k, timeout := none, retries := none } = Except.ok ()
          ↔ (k = "" ∨ jsStartsWith k API_KEY_PREFIX = true)) ∧
    validateConfig { apiKey := none, timeout := none, retries := none } = Except.ok () := by
  constructor
  · intro k
    by_cases h1 : k = "" <;> by_cases h2 : jsStartsWith k API_KEY_PREFIX <;>
      simp [validateConfig, apiKeyBad, timeoutBad, retriesBad, h1, h2]
  · rfl

/-- Witness for C6: a well-prefixed key passes construction. -/
theorem c6_witness :
    validateConfig { apiKey := some ("moltgram_abcdefghij1234567890"), timeout := none,
                     retries := none } = Except.ok () := by
  exact (c6_config_validation.1 ("moltgram_abcdefghij1234567890")).mpr (Or.inr (by decide))

/-- C7: the rate-limit snapshot stays null through runs that never receive a
response; when a response carries all three headers the stored snapshot is
replaced wholesale by values computed from the headers alone (independent of
the previous snapshot); responses update the snapshot whether or not they
are successes; and attempts with no response never touch it. -/
theorem c7_rate_limit_snapshot :
    (∀ (retries : Nat) (retryDelay : Int) (transport : Nat → AttemptOutcome)
        (nowAt : Nat → Int),
        (∀ i, transport i = AttemptOutcome.fetchFailure ∨ transport i = AttemptOutcome.timedOut) →
        (request retries retryDelay transport nowAt).rateLimit = none) ∧
    (∀ (headers : RespHeaders) (st st' : Option RateLimitInfo),
        truthyHeader headers.limit = true → truthyHeader headers.remaining = true →
        truthyHeader headers.reset = true →
        parseRateLimitHeaders headers st
            = some { limit := jsParseInt (headers.limit.getD (""))
                     remaining := jsParseInt (headers.remaining.getD (""))
                     resetAt := (jsParseInt (headers.reset.getD (""))).map (fun n => n * 1000) } ∧
        parseRateLimitHeaders headers st = parseRateLimitHeaders headers st') ∧
    (∀ (st : Option RateLimitInfo) (status : Nat) (statusText : String)
        (headers : RespHeaders) (body : Option ApiErrorBody),
        updateRateLimit st (AttemptOutcome.response status statusText headers body)
          = parseRateLimitHeaders headers st) ∧
    (∀ st : Option RateLimitInfo,
        updateRateLimit st AttemptOutcome.fetchFailure = st ∧
        updateRateLimit st AttemptOutcome.timedOut = st) := by
  refine ⟨?_, ?_, fun _ _ _ _ _ => rfl, fun _ => ⟨rfl, rfl⟩⟩
  · intro retries retryDelay transport nowAt htr
    exact requestGo_no_response retries retryDelay transport nowAt htr (retries + 1) 0 none [] none
  · intro headers st st' h1 h2 h3
    constructor <;> simp [parseRateLimitHeaders, h1, h2, h3]

/-- Witness for C7 on concrete runs and headers. -/
theorem c7_witness :
    (request 2 1000 (fun _ => AttemptOutcome.fetchFailure) (fun _ => 0)).rateLimit = none ∧
    parseRateLimitHeaders { limit := some ("100"), remaining := some ("41"), reset := some ("1700000000") }
        (some { limit := some 1, remaining := some 2, resetAt := some 3 })
      = some { limit := some 100, remaining := some 41, resetAt := some 1700000000000 } := by
  constructor
  · exact c7_rate_limit_snapshot.1 2 1000 (fun _ => AttemptOutcome.fetchFailure) (fun _ => 0)
      (fun i => Or.inl rfl)
  · have h := (c7_rate_limit_snapshot.2.1
      { limit := some ("100"), remaining := some ("41"), reset := some ("1700000000") }
      (some { limit := some 1, remaining := some 2, resetAt := some 3 })
      none rfl rfl rfl).1
    rw [h]
    decide

/-- Claim C8 as stated is false: a 429 body that explicitly supplies
retryAfter = 0 is mapped to the default 60, so the default is not applied
only when the body omits the field. -/
theorem c8_counterexample :
    retryAfterOf (handleErrorResponse 0 429 ("")
        (some { error := some ("slow down"), code := none, hint := none, retryAfter := some 0 }))
      = some 60 ∧
    some (0 : Int) ≠ some (60 : Int) := by
  refine ⟨rfl, by decide⟩

/-- C8 (amended): for a 429 response the mapped RateLimited error carries
the retryAfter supplied by the body when it is present and non-zero, and
defaults to 60 when the body omits the field or supplies the falsy 0; in
both cases resetAt is the current time plus retryAfter seconds (in ms). -/
theorem c8_rate_limited_mapping (now : Int) (statusText : String) (body : ApiErrorBody) :
    (∀ n : Int, body.retryAfter = some n → n ≠ 0 →
        retryAfterOf (handleErrorResponse now 429 statusText (some body)) = some n ∧
        resetAtOf (handleErrorResponse now 429 statusText (some body))
          = some (now + n * 1000)) ∧
    (body.retryAfter = none ∨ body.retryAfter = some 0 →
        retryAfterOf (handleErrorResponse now 429 statusText (some body)) = some 60 ∧
        resetAtOf (handleErrorResponse now 429 statusText (some body))
          = some (now + 60 * 1000)) ∧
    errKind (handleErrorResponse now 429 statusText (some body)) = ErrKind.rateLimited := by
  refine ⟨?_, ?_, ?_⟩
  · intro n hn hnz
    constructor <;>
      simp [handleErrorResponse, RateLimitError, retryAfterOf, resetAtOf, jsOrInt, hn, hnz]
  · intro h
    rcases h with h | h <;>
      constructor <;>
      simp [handleErrorResponse, RateLimitError, retryAfterOf, resetAtOf, jsOrInt, h]
  · simp [handleErrorResponse, RateLimitError, errKind]

/-- Witness for C8 with a body supplying retryAfter = 5 at time 100. -/
theorem c8_witness :
    retryAfterOf (handleErrorResponse 100 429 ("Too Many")
        (some { error := some ("rate"), code := none, hint := none, retryAfter := some 5 }))
      = some 5 ∧
    resetAtOf (handleErrorResponse 100 429 ("Too Many")
        (some { error := some ("rate"), code := none, hint := none, retryAfter := some 5 }))
      = some 5100 := by
  exact (c8_rate_limited_mapping 100 ("Too Many")
    { error := some ("rate"), code := none, hint := none, retryAfter := some 5 }).1
    5 rfl (by decide)

/-- C9: the built URL keeps exactly the defined query parameters — entries
with an undefined value are skipped, everything else is stringified in
order — and a parameter with an empty-string value is serialized as key=
(it is present, with an empty value). -/
theorem c9_query_building :
    (∀ q : List (String × QueryVal),
        buildSearchParams (some q)
          = (q.filter (fun p => !(isUndef p.2))).map (fun p => (p.1, qString p.2))) ∧
    (∀ (q : List (String × QueryVal)) (k : String),
        (k, QueryVal.s ("")) ∈ q → (k, "") ∈ buildSearchParams (some q)) ∧
    (∀ (ps : List (String × String)) (k : String),
        (k, "") ∈ ps → ∃ pre post, serializeSearch ps = pre ++ (k ++ "=") ++ post) := by
  refine ⟨?_, ?_, ?_⟩
  · intro q
    exact appendSearchParams_eq q
  · intro q k hk
    rw [buildSearchParams, appendSearchParams_eq]
    refine List.mem_map.mpr ⟨(k, QueryVal.s ("")), ?_, rfl⟩
    exact List.mem_filter.mpr ⟨hk, rfl⟩
  · intro ps k hk
    obtain ⟨pre, post, h⟩ := serializeSearch_mem ps k ("") hk
    refine ⟨pre, post, ?_⟩
    rw [h, String.append_empty]

/-- Witness for C9 on a concrete query object. -/
theorem c9_witness :
    (("a", "") ∈ buildSearchParams
        (some [("a", QueryVal.s ("")), ("b", QueryVal.undef), ("c", QueryVal.n 7)])) ∧
    (∃ pre post, serializeSearch [("a", ""), ("c", "7")] = pre ++ ("a" ++ "=") ++ post) := by
  constructor
  · exact c9_query_building.2.1 [("a", QueryVal.s ("")), ("b", QueryVal.undef), ("c", QueryVal.n 7)]
      ("a") (by simp)
  · exact c9_query_building.2.2 [("a", ""), ("c", "7")] ("a") (by simp)

/-- C10: when any of the three rate-limit headers is missing, the stored
snapshot is left completely unchanged — the update is all-or-nothing. -/
theorem c10_partial_headers_frame (headers : RespHeaders) (st : Option RateLimitInfo)
    (h : headers.limit = none ∨ headers.remaining = none ∨ headers.reset = none) :
    parseRateLimitHeaders headers st = st := by
  rcases h with h | h | h <;> simp [parseRateLimitHeaders, h, truthyHeader]

/-- Witness for C10 with a missing limit header and a populated snapshot. -/
theorem c10_witness :
    parseRateLimitHeaders { limit := none, remaining := some ("5"), reset := some ("99") }
        (some { limit := some 10, remaining := some 2, resetAt := some 0 })
      = some { limit := some 10, remaining := some 2, resetAt := some 0 } := by
  exact c10_partial_headers_frame
    { limit := none, remaining := some ("5"), reset := some ("99") }
    (some { limit := some 10, remaining := some 2, resetAt := some 0 })
    (Or.inl rfl)

end Moltgram
